import Mathlib

/-!
Shallow embedding of the Melingo engagement backend
(src/backend/local_app.py and its near-identical twin src/backend/modal_app.py):
the session store mutated by the /track handler, the session analyzer
`analyze_session_behavior`, the decision engine `get_ai_decision` with its
regex-based parsing of the external response, and `get_fallback_decision`.

Python JSON values are modelled by `JVal` (numbers as rationals), parsed JSON
objects by association lists, exceptions by `Except Unit` / explicit error
constructors, and the external OpenAI call by an oracle parameter `ExtResult`.
-/

namespace Melingo

/-- A parsed JSON value as produced by Python's `json.loads`.
Numbers are modelled as rationals (Python parses them to int/float). -/
inductive JVal where
  | jnull
  | jbool (b : Bool)
  | jnum (q : ℚ)
  | jstr (s : String)
  | jarr (xs : List JVal)
  | jobj (fs : List (String × JVal))

/-- A parsed JSON object (Python dict with string keys), as stored by /track. -/
abbrev JObj := List (String × JVal)

/-- Dictionary lookup, `d.get(k)` / `d[k]`.  `json.loads` keeps the last
occurrence of a duplicate key, hence the lookup on the reversed field list. -/
def jget (fs : JObj) (k : String) : Option JVal :=
  fs.reverse.lookup k

/-- Python numeric coercion used by `-` on JSON values: int/float subtract,
and `bool` is an int subtype (`True - False == 1`); everything else raises
`TypeError`. -/
def pyToNum : JVal → Option ℚ
  | .jnum q => some q
  | .jbool b => some (if b then 1 else 0)
  | _ => none

/-- Python `v == "s"` for a JSON value `v`: equality across distinct types
is `False`, string equality otherwise (never raises). -/
def isStrVal (v : JVal) (s : String) : Bool :=
  match v with
  | .jstr t => t == s
  | _ => false

/-- The filter predicate `e["event_type"] == t` once `event_type` is known to
be present (`e.get(...) == t` evaluates missing keys to `None`, unequal to
any string). -/
def hasType (e : JObj) (t : String) : Bool :=
  match jget e "event_type" with
  | some v => isStrVal v t
  | none => false

/-- The filter predicate `e.get("page_type") == p`. -/
def hasPageType (e : JObj) (p : String) : Bool :=
  match jget e "page_type" with
  | some v => isStrVal v p
  | none => false

/-- The analysis dict built by `analyze_session_behavior` for a non-empty
event list (field for field as in local_app.py lines 128-139). -/
structure Summary where
  total_events : Nat
  page_views : Nat
  clicks : Nat
  cart_actions : Nat
  session_duration : ℚ
  product_page_views : Nat
  cart_page_views : Nat
  current_page : JVal
  has_cart_items : Bool
  events : List JObj

/-- `analyze_session_behavior(events)` (local_app.py lines 114-142).
Returns `.ok none` for the empty dict `{}` on an empty input, `.error ()`
when the Python code raises (a `KeyError` from `e["event_type"]` or
`e["timestamp"]`, or a `TypeError` from subtracting non-numeric timestamps),
and `.ok (some s)` otherwise. -/
def analyze_session_behavior (events : List JObj) : Except Unit (Option Summary) :=
  if events.isEmpty then .ok none
  else if events.all (fun e => (jget e "event_type").isSome) then
    match (jget (events.getLastD []) "timestamp").bind pyToNum,
          (jget (events.headD []) "timestamp").bind pyToNum with
    | some tLast, some tFirst =>
        let page_views := events.filter (fun e => hasType e "page_view")
        let clicks := events.filter (fun e => hasType e "click")
        let cart_actions := events.filter (fun e => hasType e "add_to_cart")
        let product_pages := page_views.filter (fun e => hasPageType e "product")
        let cart_pages := page_views.filter (fun e => hasPageType e "cart")
        .ok (some
          { total_events := events.length
            page_views := page_views.length
            clicks := clicks.length
            cart_actions := cart_actions.length
            session_duration := tLast - tFirst
            product_page_views := product_pages.length
            cart_page_views := cart_pages.length
            current_page := (jget (events.getLastD []) "page_type").getD (.jstr "unknown")
            has_cart_items := decide (0 < cart_actions.length)
            events := events.drop (events.length - 5) })
    | _, _ => .error ()
  else .error ()

/-- The `AIResponse` pydantic model. -/
structure AIResponse where
  should_show_message : Bool
  message : Option String
  trigger_type : Option String

/-- `get_fallback_decision(analysis)` (local_app.py lines 226-248).  The
argument is the analysis dict, which is either `{}` (from an empty event
list, all `.get` defaults apply) or a full summary. -/
def get_fallback_decision (analysis : Option Summary) : AIResponse :=
  let has_cart := match analysis with | none => false | some s => s.has_cart_items
  let total_events := match analysis with | none => 0 | some s => s.total_events
  if has_cart then
    { should_show_message := true
      message := some "Great choice! Complete your order for free shipping!"
      trigger_type := some "urgency" }
  else if 3 ≤ total_events then
    { should_show_message := true
      message := some "Still browsing? Get 10% off your first order!"
      trigger_type := some "discount" }
  else
    { should_show_message := false, message := none, trigger_type := none }

/-- Python substring containment on char lists, `needle in hay`. -/
def containsSub (needle : List Char) : List Char → Bool
  | [] => needle.isEmpty
  | c :: cs => needle.isPrefixOf (c :: cs) || containsSub needle cs

/-- Python `needle in hay` on strings. -/
def strContains (hay needle : String) : Bool :=
  containsSub needle.toList hay.toList

/-- Python's regex class `\s` restricted to the ASCII range (the claims only
exercise these; `re` on `str` additionally matches some further Unicode
whitespace code points). -/
def pyIsSpace (c : Char) : Bool :=
  c = ' ' || c = '\t' || c = '\n' || c = '\r' || c = '\x0B' || c = '\x0C'

/-- Attempt to match the pattern `PAT\s*"([^"]+)"` at the head of `cs`,
where `pat` is the literal character sequence `PAT`.  Greedy `\s*` and
`[^"]+` need no backtracking here because neither can consume a `"`. -/
def tryMatchAt (pat : List Char) (cs : List Char) : Option String :=
  if pat.isPrefixOf cs then
    match (cs.drop pat.length).dropWhile pyIsSpace with
    | '"' :: rest =>
        if (rest.takeWhile (fun c => c != '"')).isEmpty then none
        else match rest.drop (rest.takeWhile (fun c => c != '"')).length with
          | '"' :: _ => some (String.mk (rest.takeWhile (fun c => c != '"')))
          | _ => none
    | _ => none
  else none

/-- Leftmost-match scan of `re.search`: try the pattern at each successive
start position. -/
def searchFrom (pat : List Char) : List Char → Option String
  | [] => tryMatchAt pat []
  | c :: cs =>
    match tryMatchAt pat (c :: cs) with
    | some m => some m
    | none => searchFrom pat cs

/-- The group captured by `re.search(r'"KEY":\s*"([^"]+)"', text)` for a
field name `KEY`, or `none` when the pattern does not occur. -/
def extractField (key : String) (text : String) : Option String :=
  searchFrom ('"' :: (key.toList ++ ['"', ':'])) text.toList

/-- Outcome of the external OpenAI chat-completion call, which the engine
cannot influence: the call raises (network/credential error), returns a
message whose `content` is `None` (the later `in` test then raises a
`TypeError`, caught by the same handler), or returns text. -/
inductive ExtResult where
  | raises
  | contentNone
  | ok (text : String)

/-- The fixed default message substituted when the `"message"` capture
fails. -/
def defaultMessage : String := "Special offer just for you!"

/-- The fixed default trigger substituted when the `"trigger_type"` capture
fails. -/
def defaultTrigger : String := "discount"

/-- The literal Python substring test `"should_show_message\": true" in ai_text`. -/
def trueIndicator : String := "should_show_message\": true"

/-- `get_ai_decision(analysis)` (local_app.py lines 144-224).  `apiKey` is
`os.getenv("OPENAI_API_KEY")`; with no key the fallback is returned directly
(in modal_app.py the same happens through the `OpenAI()` constructor
raising).  A raise from the call or from parsing a `None` content is caught
by the `except` and routed to `get_fallback_decision`.  On text, the
substring test and the two regex captures decide the response; neither can
raise. -/
def get_ai_decision (apiKey : Option String) (ext : ExtResult) (analysis : Option Summary) :
    AIResponse :=
  match apiKey with
  | none => get_fallback_decision analysis
  | some _ =>
    match ext with
    | .raises => get_fallback_decision analysis
    | .contentNone => get_fallback_decision analysis
    | .ok text =>
      if strContains text trueIndicator then
        { should_show_message := true
          message := some ((extractField "message" text).getD defaultMessage)
          trigger_type := some ((extractField "trigger_type" text).getD defaultTrigger) }
      else
        { should_show_message := false, message := none, trigger_type := none }

/-- One value of `sessions_store`: the accumulated raw events plus the two
bookkeeping timestamps. -/
structure SessionData where
  events : List JObj
  created_at : ℚ
  last_activity : ℚ

/-- `sessions_store`, a Python dict keyed by whatever `body.get("session_id")`
returned (possibly `None`), modelled as an insertion-ordered association
list. -/
abbrev Store := List (JVal × SessionData)

/-- Python hashability of a candidate dict key: lists and dicts raise
`TypeError` when used in `in`/`[]`; everything the /track body can supply
otherwise is hashable. -/
def hashable : JVal → Bool
  | .jarr _ => false
  | .jobj _ => false
  | _ => true

/-- Numeric view of a key for Python `==`: `bool` is an int subtype, so
`True == 1` and dict keys `True` and `1` coincide. -/
def pyKeyNum : JVal → Option ℚ
  | .jnum q => some q
  | .jbool b => some (if b then 1 else 0)
  | _ => none

/-- Python `==` on hashable store keys (`None`, booleans, numbers, strings).
Lists and dicts cannot occur as dict keys, so their equality is
irrelevant here and taken as `false`. -/
def pyEq (a b : JVal) : Bool :=
  match pyKeyNum a, pyKeyNum b with
  | some x, some y => decide (x = y)
  | _, _ =>
    match a, b with
    | .jnull, .jnull => true
    | .jstr s, .jstr t => decide (s = t)
    | _, _ => false

/-- Dict lookup `sessions_store[k]` / the `k in sessions_store` test. -/
def storeFind (k : JVal) : Store → Option SessionData
  | [] => none
  | p :: ps => if pyEq p.1 k then some p.2 else storeFind k ps

/-- Dict update `sessions_store[k] = v`: overwrite in place if a key equal
to `k` exists, append a new entry otherwise (Python dicts preserve insertion
order). -/
def storeSet (k : JVal) (v : SessionData) : Store → Store
  | [] => [(k, v)]
  | p :: ps => if pyEq p.1 k then (p.1, v) :: ps else p :: storeSet k v ps

/-- Response of the /track handler: `{"status": "success", "session_id": sid}`
or `{"error": str(e)}`. -/
inductive TrackResponse where
  | success (session_id : JVal)
  | error

/-- `track_event` (local_app.py lines 54-79).  `body` is `none` when
`json.loads` raises on the request body, otherwise the parsed value.  A
non-dict body raises `AttributeError` at `.get`, an unhashable
`session_id` value raises `TypeError` at the `in` test; both are caught and
become the error response with the store untouched.  Otherwise the session
keyed by the (possibly `None`) id is created if absent, the event appended
and `last_activity` refreshed. -/
def track_event (store : Store) (now : ℚ) (body : Option JVal) : Store × TrackResponse :=
  match body with
  | some (.jobj fs) =>
    let sid := (jget fs "session_id").getD .jnull
    if hashable sid then
      let sd := (storeFind sid store).getD { events := [], created_at := now, last_activity := now }
      (storeSet sid { sd with events := sd.events ++ [fs], last_activity := now } store,
       .success sid)
    else (store, .error)
  | _ => (store, .error)

/-- Response of the /analyze handler: the not-found error object, or a
decision serialised from an `AIResponse` (the handler's own `except` turns
any other exception into the fixed 15%-off decision, never an error
object). -/
inductive AnalyzeResponse where
  | notFound
  | decision (r : AIResponse)

/-- The fixed decision returned by the /analyze `except` handler. -/
def fallback15 : AIResponse :=
  { should_show_message := true
    message := some "Thanks for browsing! Get 15% off your first order!"
    trigger_type := some "discount" }

/-- `analyze_session` (local_app.py lines 81-112).  Any exception inside the
handler — unparseable body, non-dict body, unhashable id, or a raise inside
`analyze_session_behavior` — is caught and yields `fallback15`.  An id
absent from the store returns the not-found error before any analysis. -/
def analyze_session (store : Store) (apiKey : Option String) (ext : ExtResult)
    (body : Option JVal) : AnalyzeResponse :=
  match body with
  | some (.jobj fs) =>
    let sid := (jget fs "session_id").getD .jnull
    if hashable sid then
      match storeFind sid store with
      | none => .notFound
      | some sd =>
        match analyze_session_behavior sd.events with
        | .error _ => .decision fallback15
        | .ok analysis => .decision (get_ai_decision apiKey ext analysis)
    else .decision fallback15
  | _ => .decision fallback15

/-! Helper lemmas about Python key equality and the store. -/

theorem pyEq_comm (a b : JVal) : pyEq a b = pyEq b a := by
  cases a <;> cases b <;> simp [pyEq, pyKeyNum, eq_comm]

theorem pyEq_trans {a b c : JVal} (h1 : pyEq a b = true) (h2 : pyEq b c = true) :
    pyEq a c = true := by
  cases a <;> cases b <;> cases c <;> simp_all [pyEq, pyKeyNum]

theorem pyEq_refl {a : JVal} (h : hashable a = true) : pyEq a a = true := by
  cases a <;> simp_all [pyEq, pyKeyNum, hashable]

theorem storeFind_storeSet_match (k k2 : JVal) (v : SessionData) (h : pyEq k2 k = true) :
    ∀ store : Store, storeFind k2 (storeSet k v store) = some v := by
  have hk : pyEq k k2 = true := (pyEq_comm k k2).trans h
  intro store
  induction store with
  | nil => simp [storeSet, storeFind, hk]
  | cons p ps ih =>
    by_cases hp : pyEq p.1 k = true
    · have hpk2 : pyEq p.1 k2 = true := pyEq_trans hp hk
      simp [storeSet, hp, storeFind, hpk2]
    · have hp' : pyEq p.1 k = false := by simpa using hp
      have hpk2 : pyEq p.1 k2 = false := by
        by_contra hc
        have hc' : pyEq p.1 k2 = true := by simpa using hc
        exact hp (pyEq_trans hc' h)
      simp [storeSet, hp', storeFind, hpk2, ih]

theorem storeFind_storeSet_other (k k2 : JVal) (v : SessionData) (h : pyEq k2 k = false) :
    ∀ store : Store, storeFind k2 (storeSet k v store) = storeFind k2 store := by
  intro store
  induction store with
  | nil =>
    have hk : pyEq k k2 = false := (pyEq_comm k k2).trans h
    simp [storeSet, storeFind, hk]
  | cons p ps ih =>
    by_cases hp : pyEq p.1 k = true
    · have hpk2 : pyEq p.1 k2 = false := by
        by_contra hc
        have hc' : pyEq p.1 k2 = true := by simpa using hc
        have : pyEq k2 k = true := pyEq_trans ((pyEq_comm k2 p.1).trans hc') hp
        simp [this] at h
      simp [storeSet, hp, storeFind, hpk2]
    · have hp' : pyEq p.1 k = false := by simpa using hp
      by_cases hq : pyEq p.1 k2 = true
      · simp [storeSet, hp', storeFind, hq]
      · have hq' : pyEq p.1 k2 = false := by simpa using hq
        simp [storeSet, hp', storeFind, hq', ih]

/-- The summary record literally built by `analyze_session_behavior` on a
non-empty event list whose last/first timestamps coerce to `tLast`/`tFirst`. -/
def mkSummary (events : List JObj) (tLast tFirst : ℚ) : Summary :=
  { total_events := events.length
    page_views := (events.filter (fun e => hasType e "page_view")).length
    clicks := (events.filter (fun e => hasType e "click")).length
    cart_actions := (events.filter (fun e => hasType e "add_to_cart")).length
    session_duration := tLast - tFirst
    product_page_views :=
      ((events.filter (fun e => hasType e "page_view")).filter
        (fun e => hasPageType e "product")).length
    cart_page_views :=
      ((events.filter (fun e => hasType e "page_view")).filter
        (fun e => hasPageType e "cart")).length
    current_page := (jget (events.getLastD []) "page_type").getD (.jstr "unknown")
    has_cart_items := decide (0 < (events.filter (fun e => hasType e "add_to_cart")).length)
    events := events.drop (events.length - 5) }

theorem analyze_run (events : List JObj) (tL tF : ℚ)
    (hne : events.isEmpty = false)
    (hall : events.all (fun e => (jget e "event_type").isSome) = true)
    (hL : (jget (events.getLastD []) "timestamp").bind pyToNum = some tL)
    (hF : (jget (events.headD []) "timestamp").bind pyToNum = some tF) :
    analyze_session_behavior events = .ok (some (mkSummary events tL tF)) := by
  unfold analyze_session_behavior
  rw [hne, hall, hL, hF]
  simp [mkSummary]

theorem analyze_ok_inversion {events : List JObj} {s : Summary}
    (h : analyze_session_behavior events = .ok (some s)) :
    ∃ tL tF, (jget (events.getLastD []) "timestamp").bind pyToNum = some tL
      ∧ (jget (events.headD []) "timestamp").bind pyToNum = some tF
      ∧ s = mkSummary events tL tF := by
  unfold analyze_session_behavior at h
  split at h
  · simp at h
  · split at h
    · split at h
      · rename_i tL tF hL hF
        refine ⟨tL, tF, hL, hF, ?_⟩
        simp only [Except.ok.injEq, Option.some.injEq] at h
        exact h.symm
      · simp at h
    · simp at h

/-- Claim C1: with no generation configuration available, the decision for
any summary is the fallback heuristic: cart items present → show with
trigger `urgency` and the free-shipping text regardless of event count;
otherwise at least 3 total events → show with trigger `discount` and the
10%-off text; otherwise (so in particular at `total_events = 2` without
cart items) do not show and carry no message or trigger. -/
theorem fallback_heuristic_spec (s : Summary) (ext : ExtResult) :
    get_ai_decision none ext (some s) =
      if s.has_cart_items then
        { should_show_message := true
          message := some "Great choice! Complete your order for free shipping!"
          trigger_type := some "urgency" }
      else if 3 ≤ s.total_events then
        { should_show_message := true
          message := some "Still browsing? Get 10% off your first order!"
          trigger_type := some "discount" }
      else { should_show_message := false, message := none, trigger_type := none } := rfl

/-- Claim C3: the decision engine never propagates an external-service
error: when the credential is missing, the external call raises, or the
response content is unusable (`None`), `get_ai_decision` returns exactly the
fallback heuristic's result for that summary (and, being total, does not
raise). -/
theorem external_failure_falls_back (analysis : Option Summary) (apiKey : Option String)
    (ext : ExtResult) (h : apiKey = none ∨ ext = .raises ∨ ext = .contentNone) :
    get_ai_decision apiKey ext analysis = get_fallback_decision analysis := by
  rcases h with rfl | rfl | rfl
  · rfl
  · cases apiKey <;> rfl
  · cases apiKey <;> rfl

/-- Witness for C3 at a concrete input: a raising external call with no
summary yields the fallback result. -/
theorem external_failure_falls_back_witness :
    get_ai_decision none .raises none = get_fallback_decision none :=
  external_failure_falls_back none none .raises (Or.inl rfl)

/-- Claim C2 counterexample: `/track` stores any JSON object, and on the
one-element sequence holding the empty object the analyzer raises a
`KeyError` at `e["event_type"]` (modelled as `.error ()`), refuting
"summarize never raises" for arbitrary stored JSON objects. -/
theorem summarize_raises_counterexample :
    analyze_session_behavior [([] : JObj)] = .error () := rfl

/-- Claim C2 (amended): on every non-empty event sequence in which each
event carries an `event_type` field and the first and last events carry
numeric `timestamp` fields, summarize does not raise, `total_events` equals
the input length, the typed buckets count exactly the events whose
`event_type` string-equals `page_view`/`click`/`add_to_cart`, and events of
unknown type land in no bucket. -/
theorem summarize_total_events (events : List JObj)
    (hne : events ≠ [])
    (hty : ∀ e ∈ events, (jget e "event_type").isSome = true)
    (hts1 : ((jget (events.headD []) "timestamp").bind pyToNum).isSome = true)
    (hts2 : ((jget (events.getLastD []) "timestamp").bind pyToNum).isSome = true) :
    ∃ s, analyze_session_behavior events = .ok (some s)
      ∧ s.total_events = events.length
      ∧ s.page_views = events.countP (fun e => hasType e "page_view")
      ∧ s.clicks = events.countP (fun e => hasType e "click")
      ∧ s.cart_actions = events.countP (fun e => hasType e "add_to_cart")
      ∧ ((∀ e ∈ events, hasType e "page_view" = false ∧ hasType e "click" = false ∧
            hasType e "add_to_cart" = false) →
          s.page_views = 0 ∧ s.clicks = 0 ∧ s.cart_actions = 0) := by
  obtain ⟨tL, hL⟩ := Option.isSome_iff_exists.mp hts2
  obtain ⟨tF, hF⟩ := Option.isSome_iff_exists.mp hts1
  have hne' : events.isEmpty = false := by simp [List.isEmpty_iff, hne]
  have hall : events.all (fun e => (jget e "event_type").isSome) = true :=
    List.all_eq_true.mpr hty
  refine ⟨mkSummary events tL tF, analyze_run events tL tF hne' hall hL hF, rfl,
    (List.countP_eq_length_filter _ _).symm, (List.countP_eq_length_filter _ _).symm,
    (List.countP_eq_length_filter _ _).symm, ?_⟩
  intro hunk
  have h1 : events.filter (fun e => hasType e "page_view") = [] :=
    List.filter_eq_nil_iff.mpr (fun a ha => by simp [(hunk a ha).1])
  have h2 : events.filter (fun e => hasType e "click") = [] :=
    List.filter_eq_nil_iff.mpr (fun a ha => by simp [(hunk a ha).2.1])
  have h3 : events.filter (fun e => hasType e "add_to_cart") = [] :=
    List.filter_eq_nil_iff.mpr (fun a ha => by simp [(hunk a ha).2.2])
  exact ⟨by simp [mkSummary, h1], by simp [mkSummary, h2], by simp [mkSummary, h3]⟩

/-- Two events of unrecognised `event_type`, used to instantiate C2. -/
def unknownTypeEvents : List JObj :=
  [[("event_type", .jstr "scroll"), ("timestamp", .jnum 1)],
   [("event_type", .jstr "hover"), ("timestamp", .jnum 3)]]

/-- Witness for C2 (amended) at a concrete input. -/
theorem summarize_total_events_witness :
    ∃ s, analyze_session_behavior unknownTypeEvents = .ok (some s)
      ∧ s.total_events = unknownTypeEvents.length := by
  obtain ⟨s, h1, h2, -⟩ :=
    summarize_total_events unknownTypeEvents (by simp [unknownTypeEvents])
      (by decide) (by decide) (by decide)
  exact ⟨s, h1, h2⟩

/-- The Python expression `events[-1]["timestamp"] - events[0]["timestamp"]`
as an optional value (none when a timestamp is missing/non-numeric). -/
def lastMinusFirstTs (events : List JObj) : Option ℚ :=
  match (jget (events.getLastD []) "timestamp").bind pyToNum,
        (jget (events.headD []) "timestamp").bind pyToNum with
  | some tLast, some tFirst => some (tLast - tFirst)
  | _, _ => none

/-- Claim C5: whenever the analyzer produces a summary, its
`session_duration` is exactly the last event's timestamp minus the first
event's timestamp — no clamping or reordering — and in particular it is `0`
for a single event (and negative for out-of-order input, see the
witness). -/
theorem session_duration_exact (events : List JObj) (s : Summary)
    (h : analyze_session_behavior events = .ok (some s)) :
    lastMinusFirstTs events = some s.session_duration
    ∧ (events.length = 1 → s.session_duration = 0) := by
  obtain ⟨tL, tF, hL, hF, rfl⟩ := analyze_ok_inversion h
  constructor
  · unfold lastMinusFirstTs
    rw [hL, hF]
    rfl
  · intro hlen
    obtain ⟨e, rfl⟩ := List.length_eq_one.mp hlen
    have hL' : (jget e "timestamp").bind pyToNum = some tL := hL
    have hF' : (jget e "timestamp").bind pyToNum = some tF := hF
    have htt : tL = tF := by
      rw [hF'] at hL'
      exact (Option.some.inj hL').symm
    simp [mkSummary, htt]

/-- Two events whose timestamps arrive out of order (5 then 2). -/
def outOfOrderEvents : List JObj :=
  [[("event_type", .jstr "page_view"), ("timestamp", .jnum 5)],
   [("event_type", .jstr "click"), ("timestamp", .jnum 2)]]

/-- Witness for C5 at a concrete out-of-order input, where the duration is
the negative value `2 - 5`. -/
theorem session_duration_exact_witness :
    lastMinusFirstTs outOfOrderEvents =
      some (mkSummary outOfOrderEvents 2 5).session_duration
    ∧ (outOfOrderEvents.length = 1 →
        (mkSummary outOfOrderEvents 2 5).session_duration = 0) :=
  session_duration_exact outOfOrderEvents (mkSummary outOfOrderEvents 2 5) rfl

/-- Claim C8: whenever the analyzer produces a summary, `current_page` is
the `page_type` value of the last event when that field is present, and the
sentinel string `"unknown"` when it is absent. -/
theorem current_page_spec (events : List JObj) (s : Summary)
    (h : analyze_session_behavior events = .ok (some s)) :
    (∀ v, jget (events.getLastD []) "page_type" = some v → s.current_page = v)
    ∧ (jget (events.getLastD []) "page_type" = none → s.current_page = .jstr "unknown") := by
  obtain ⟨tL, tF, hL, hF, rfl⟩ := analyze_ok_inversion h
  constructor
  · intro v hv
    simp only [mkSummary]
    rw [hv]
    rfl
  · intro hv
    simp only [mkSummary]
    rw [hv]
    rfl

/-- One event whose `page_type` is `"cart"`. -/
def cartPageEvents : List JObj :=
  [[("event_type", .jstr "page_view"), ("timestamp", .jnum 1),
    ("page_type", .jstr "cart")]]

/-- Witness for C8 at a concrete input whose last event carries
`page_type = "cart"`. -/
theorem current_page_spec_witness :
    (mkSummary cartPageEvents 1 1).current_page = .jstr "cart" :=
  (current_page_spec cartPageEvents (mkSummary cartPageEvents 1 1) rfl).1
    (.jstr "cart") rfl

/-- Claim C4: `/analyze` on an id absent from the store returns the
not-found error object and does not crash; any exception during analysis
(here: a raise inside `analyze_session_behavior`, or an unparseable body)
yields the fixed 15%-off fallback decision, never an error object. -/
theorem analyze_endpoint_errors (store : Store) (apiKey : Option String) (ext : ExtResult)
    (fs : JObj) (hh : hashable ((jget fs "session_id").getD .jnull) = true) :
    (storeFind ((jget fs "session_id").getD .jnull) store = none →
        analyze_session store apiKey ext (some (.jobj fs)) = .notFound)
    ∧ (∀ sd, storeFind ((jget fs "session_id").getD .jnull) store = some sd →
        analyze_session_behavior sd.events = .error () →
        analyze_session store apiKey ext (some (.jobj fs)) = .decision fallback15)
    ∧ analyze_session store apiKey ext none = .decision fallback15 := by
  refine ⟨?_, ?_, rfl⟩
  · intro hnone
    simp [analyze_session, hh, hnone]
  · intro sd hsd herr
    simp [analyze_session, hh, hsd, herr]

/-- Witness for C4 at a concrete input: an empty store and a never-tracked
session id. -/
theorem analyze_endpoint_errors_witness :
    analyze_session [] none .raises (some (.jobj [("session_id", .jstr "ghost")])) =
      .notFound :=
  (analyze_endpoint_errors [] none .raises [("session_id", .jstr "ghost")] rfl).1 rfl

/-- Claim C9 counterexample: with a credential present and an external
response containing the true-indicator substring, the decision derived from
the empty summary shows a message — the claimed always-false short-circuit
for empty-event sessions does not exist on the external path. -/
theorem empty_summary_decision_counterexample :
    (get_ai_decision (some "sk-test")
        (.ok "\"should_show_message\": true") none).should_show_message = true := rfl

/-- Claim C9 (amended): on an empty event list the analyzer returns the
distinguished empty summary (the empty dict), and the decision derived from
it on the fallback path (no credential, or external failure) never shows a message;
with a credential and a cooperative external response the decision can show
one. -/
theorem empty_summary_fallback_false :
    analyze_session_behavior [] = .ok none
    ∧ ∀ (apiKey : Option String) (ext : ExtResult),
        (apiKey = none ∨ ext = .raises ∨ ext = .contentNone) →
        get_ai_decision apiKey ext none =
          { should_show_message := false, message := none, trigger_type := none } := by
  refine ⟨rfl, ?_⟩
  rintro apiKey ext (rfl | rfl | rfl)
  · rfl
  · cases apiKey <;> rfl
  · cases apiKey <;> rfl

/-- Witness for C9 (amended) at a concrete input. -/
theorem empty_summary_fallback_false_witness :
    get_ai_decision none .raises none =
      { should_show_message := false, message := none, trigger_type := none } :=
  empty_summary_fallback_false.2 none .raises (Or.inl rfl)

/-- Claim C7: two `/track` calls carrying the same session id leave that
session holding the prior events followed by both new events in arrival
order (the first call's event a prefix of the second's result, nothing
reordered or dropped), and a subsequent `/track` call carrying a different
(non-equal) session id leaves the first session's event sequence — hence
its count — unchanged. -/
theorem track_accumulates (store : Store) (t1 t2 t3 : ℚ) (f1 f2 f3 : JObj)
    (sidA sidB : JVal)
    (h1 : (jget f1 "session_id").getD .jnull = sidA)
    (h2 : (jget f2 "session_id").getD .jnull = sidA)
    (h3 : (jget f3 "session_id").getD .jnull = sidB)
    (hA : hashable sidA = true) (hB : hashable sidB = true)
    (hAB : pyEq sidB sidA = false)
    (st1 st2 st3 : Store)
    (e1 : st1 = (track_event store t1 (some (.jobj f1))).1)
    (e2 : st2 = (track_event st1 t2 (some (.jobj f2))).1)
    (e3 : st3 = (track_event st2 t3 (some (.jobj f3))).1) :
    (storeFind sidA st2).map SessionData.events =
        some ((((storeFind sidA store).map SessionData.events).getD []) ++ [f1, f2])
    ∧ (storeFind sidA st3).map SessionData.events =
        (storeFind sidA st2).map SessionData.events := by
  have hrefl : pyEq sidA sidA = true := pyEq_refl hA
  have e1' : st1 = storeSet sidA
      { (storeFind sidA store).getD { events := [], created_at := t1, last_activity := t1 } with
        events := ((storeFind sidA store).getD
          { events := [], created_at := t1, last_activity := t1 }).events ++ [f1]
        last_activity := t1 } store := by
    rw [e1]
    simp [track_event, h1, hA]
  have find1 : storeFind sidA st1 = some
      { (storeFind sidA store).getD { events := [], created_at := t1, last_activity := t1 } with
        events := ((storeFind sidA store).getD
          { events := [], created_at := t1, last_activity := t1 }).events ++ [f1]
        last_activity := t1 } := by
    rw [e1']
    exact storeFind_storeSet_match _ _ _ hrefl store
  have e2' : st2 = storeSet sidA
      { events := (((storeFind sidA store).getD
            { events := [], created_at := t1, last_activity := t1 }).events ++ [f1]) ++ [f2]
        created_at := ((storeFind sidA store).getD
            { events := [], created_at := t1, last_activity := t1 }).created_at
        last_activity := t2 } st1 := by
    rw [e2]
    simp [track_event, h2, hA, find1]
  have find2 : storeFind sidA st2 = some
      { events := (((storeFind sidA store).getD
            { events := [], created_at := t1, last_activity := t1 }).events ++ [f1]) ++ [f2]
        created_at := ((storeFind sidA store).getD
            { events := [], created_at := t1, last_activity := t1 }).created_at
        last_activity := t2 } := by
    rw [e2']
    exact storeFind_storeSet_match _ _ _ hrefl st1
  constructor
  · rw [find2]
    cases hfind : storeFind sidA store <;> simp [hfind]
  · have hBA : pyEq sidA sidB = false := (pyEq_comm sidA sidB).trans hAB
    have e3' : st3 = storeSet sidB
        { (storeFind sidB st2).getD { events := [], created_at := t3, last_activity := t3 } with
          events := ((storeFind sidB st2).getD
            { events := [], created_at := t3, last_activity := t3 }).events ++ [f3]
          last_activity := t3 } st2 := by
      rw [e3]
      simp [track_event, h3, hB]
    rw [e3', storeFind_storeSet_other sidB sidA _ hBA st2]

/-- Witness for C7 at concrete inputs: session `"a"` tracked twice, then
session `"b"` once, starting from the empty store. -/
theorem track_accumulates_witness :
    (storeFind (.jstr "a")
        (track_event (track_event [] 1 (some (.jobj [("session_id", .jstr "a")]))).1 2
          (some (.jobj [("session_id", .jstr "a")]))).1).map SessionData.events =
      some ((((storeFind (.jstr "a") ([] : Store)).map SessionData.events).getD []) ++
        [[("session_id", .jstr "a")], [("session_id", .jstr "a")]])
    ∧ (storeFind (.jstr "a")
        (track_event
          (track_event (track_event [] 1 (some (.jobj [("session_id", .jstr "a")]))).1 2
            (some (.jobj [("session_id", .jstr "a")]))).1 3
          (some (.jobj [("session_id", .jstr "b")]))).1).map SessionData.events =
      (storeFind (.jstr "a")
        (track_event (track_event [] 1 (some (.jobj [("session_id", .jstr "a")]))).1 2
          (some (.jobj [("session_id", .jstr "a")]))).1).map SessionData.events :=
  track_accumulates [] 1 2 3
    [("session_id", .jstr "a")] [("session_id", .jstr "a")] [("session_id", .jstr "b")]
    (.jstr "a") (.jstr "b") rfl rfl rfl rfl rfl (by decide) _ _ _ rfl rfl rfl

/-- Claim C10 counterexample: the body `5` parses as JSON, yet `/track`
answers with the error response (the handler's `.get` raises
`AttributeError` on a non-dict) and stores nothing — refuting "every body
that parses as JSON returns success". -/
theorem track_nonobject_counterexample :
    track_event [] 0 (some (.jnum 5)) = ([], .error) := rfl

/-- Claim C10 (amended): for every body that parses as a JSON object whose
`session_id` value (or `null` when the field is absent) is hashable,
`/track` returns the success response echoing that id, and a body without a
`session_id` field is recorded in the session keyed by `null`; bodies that
fail JSON parsing, parse to a non-object, or carry an unhashable
`session_id` yield the error response and leave the store unchanged. -/
theorem track_body_spec (store : Store) (now : ℚ) :
    (∀ fs : JObj, hashable ((jget fs "session_id").getD .jnull) = true →
        (track_event store now (some (.jobj fs))).2 =
          .success ((jget fs "session_id").getD .jnull)
        ∧ (jget fs "session_id" = none →
            (storeFind .jnull (track_event store now (some (.jobj fs))).1).map
                SessionData.events =
              some ((((storeFind .jnull store).map SessionData.events).getD []) ++ [fs])))
    ∧ (∀ fs : JObj, hashable ((jget fs "session_id").getD .jnull) = false →
        track_event store now (some (.jobj fs)) = (store, .error))
    ∧ (∀ v : JVal, (∀ fs : JObj, v ≠ .jobj fs) →
        track_event store now (some v) = (store, .error))
    ∧ track_event store now none = (store, .error) := by
  refine ⟨?_, ?_, ?_, rfl⟩
  · intro fs hh
    constructor
    · simp [track_event, hh]
    · intro habs
      have hsid : (jget fs "session_id").getD .jnull = .jnull := by rw [habs]; rfl
      have hset : (track_event store now (some (.jobj fs))).1 = storeSet .jnull
          { (storeFind .jnull store).getD
              { events := [], created_at := now, last_activity := now } with
            events := ((storeFind .jnull store).getD
              { events := [], created_at := now, last_activity := now }).events ++ [fs]
            last_activity := now } store := by
        simp [track_event, hsid, hashable]
      rw [hset, storeFind_storeSet_match .jnull .jnull _ rfl store]
      cases hfind : storeFind .jnull store <;> simp [hfind]
  · intro fs hh
    simp [track_event, hh]
  · intro v hv
    cases v with
    | jobj fs => exact absurd rfl (hv fs)
    | jnull => rfl
    | jbool b => rfl
    | jnum q => rfl
    | jstr s => rfl
    | jarr xs => rfl

/-- Witness for C10 (amended) at a concrete input: a body with no
`session_id` field succeeds and is stored under the `null` key. -/
theorem track_body_spec_witness :
    (track_event [] 0 (some (.jobj [("page_url", .jstr "/")]))).2 = .success .jnull
    ∧ (storeFind .jnull (track_event [] 0 (some (.jobj [("page_url", .jstr "/")]))).1).map
          SessionData.events =
        some ((((storeFind .jnull ([] : Store)).map SessionData.events).getD []) ++
          [[("page_url", .jstr "/")]]) := by
  obtain ⟨hs, hn⟩ := (track_body_spec [] 0).1 [("page_url", .jstr "/")] rfl
  exact ⟨hs, hn rfl⟩

/-! Characterization of the substring test and the regex capture used when
parsing the external response. -/

theorem isPrefixOf_iff_append : ∀ l l2 : List Char, l.isPrefixOf l2 = true ↔ ∃ t, l ++ t = l2
  | [], l2 => by simp [List.isPrefixOf]
  | a :: l, [] => by simp [List.isPrefixOf]
  | a :: l, b :: l2 => by
    simp only [List.isPrefixOf, Bool.and_eq_true, beq_iff_eq, List.cons_append,
      isPrefixOf_iff_append l l2]
    constructor
    · rintro ⟨rfl, t, rfl⟩
      exact ⟨t, rfl⟩
    · rintro ⟨t, ht⟩
      injection ht with h1 h2
      exact ⟨h1, t, h2⟩

theorem takeWhile_append_drop_length (p : Char → Bool) :
    ∀ l : List Char, l.takeWhile p ++ l.drop (l.takeWhile p).length = l
  | [] => rfl
  | a :: l => by
    by_cases h : p a
    · simp [List.takeWhile_cons, h, takeWhile_append_drop_length p l]
    · simp [List.takeWhile_cons, h]

theorem containsSub_iff (n : List Char) :
    ∀ hay : List Char, containsSub n hay = true ↔ ∃ l r, hay = l ++ n ++ r := by
  intro hay
  induction hay with
  | nil =>
    simp only [containsSub, List.isEmpty_iff]
    constructor
    · rintro rfl
      exact ⟨[], [], rfl⟩
    · rintro ⟨l, r, hlr⟩
      have := hlr.symm
      simp only [List.append_eq_nil] at this
      exact this.1.2
  | cons c cs ih =>
    simp only [containsSub, Bool.or_eq_true]
    constructor
    · rintro (hp | hc)
      · obtain ⟨t, ht⟩ := (isPrefixOf_iff_append n (c :: cs)).mp hp
        exact ⟨[], t, by simp [← ht]⟩
      · obtain ⟨l, r, hlr⟩ := ih.mp hc
        exact ⟨c :: l, r, by simp [hlr]⟩
    · rintro ⟨l, r, hlr⟩
      cases l with
      | nil =>
        exact Or.inl ((isPrefixOf_iff_append n (c :: cs)).mpr ⟨r, by simpa using hlr.symm⟩)
      | cons x l' =>
        refine Or.inr (ih.mpr ⟨l', r, ?_⟩)
        have : c :: cs = x :: (l' ++ n ++ r) := by simpa using hlr
        exact (List.cons.injEq _ _ _ _ ▸ this).2

theorem tryMatchAt_sound {pat cs : List Char} {m : String}
    (h : tryMatchAt pat cs = some m) :
    ∃ ws post, cs = pat ++ ws ++ '"' :: m.toList ++ '"' :: post
      ∧ (∀ c ∈ ws, pyIsSpace c = true)
      ∧ m.toList ≠ []
      ∧ ∀ c ∈ m.toList, c ≠ '"' := by
  unfold tryMatchAt at h
  split at h
  · rename_i hp
    obtain ⟨t, ht⟩ := (isPrefixOf_iff_append pat cs).mp hp
    have hdrop : cs.drop pat.length = t := by rw [← ht]; exact List.drop_left pat t
    rw [hdrop] at h
    split at h
    · rename_i rest2 heq
      have hws : ∀ c ∈ t.takeWhile pyIsSpace, pyIsSpace c = true := by
        intro c hc
        exact List.mem_takeWhile_imp hc
      have ht2 : t = t.takeWhile pyIsSpace ++ '"' :: rest2 := by
        rw [← heq]
        exact (List.takeWhile_append_dropWhile pyIsSpace t).symm
      split at h
      · exact absurd h (by simp)
      · rename_i hcap
        split at h
        · rename_i post hdrop2
          have hrest2 : rest2 = rest2.takeWhile (fun c => c != '"') ++ '"' :: post := by
            conv_lhs => rw [← takeWhile_append_drop_length (fun c => c != '"') rest2]
            rw [hdrop2]
          have hm : m = String.mk (rest2.takeWhile (fun c => c != '"')) :=
            (Option.some.inj h).symm
          refine ⟨t.takeWhile pyIsSpace, post, ?_, hws, ?_, ?_⟩
          · conv_lhs => rw [← ht, ht2]
            rw [hrest2, hm]
            simp
          · rw [hm]
            simpa [List.isEmpty_iff] using hcap
          · intro c hc
            rw [hm] at hc
            have hc' : c ∈ rest2.takeWhile (fun c => c != '"') := hc
            have hcc := List.mem_takeWhile_imp hc'
            simpa using hcc
        · exact absurd h (by simp)
    · exact absurd h (by simp)
  · exact absurd h (by simp)

theorem searchFrom_sound {pat : List Char} {m : String} :
    ∀ {cs : List Char}, searchFrom pat cs = some m →
      ∃ l rest, cs = l ++ rest ∧ tryMatchAt pat rest = some m := by
  intro cs
  induction cs with
  | nil =>
    intro h
    exact ⟨[], [], rfl, by simpa [searchFrom] using h⟩
  | cons c cs ih =>
    intro h
    unfold searchFrom at h
    split at h
    · rename_i m' hm'
      exact ⟨[], c :: cs, rfl, hm'.trans h⟩
    · obtain ⟨l, rest, hcs, hmatch⟩ := ih h
      exact ⟨c :: l, rest, by simp [hcs], hmatch⟩

/-- Claim C6: for every external response text, if the literal true-indicator
substring is present the engine shows a message, with `message` and
`trigger_type` taken from the quoted-string regex captures and the fixed
defaults substituted for whichever capture fails; if the indicator is absent
it returns a no-show decision with no message and no trigger.  The second
conjunct characterises the indicator test as literal substring containment,
and the third characterises a successful capture: the text decomposes
around `"KEY":`, optional whitespace, and a non-empty quote-free group in
double quotes. -/
theorem ai_response_parsing (k : String) (analysis : Option Summary) (text : String) :
    (get_ai_decision (some k) (.ok text) analysis =
      if strContains text trueIndicator then
        { should_show_message := true
          message := some ((extractField "message" text).getD defaultMessage)
          trigger_type := some ((extractField "trigger_type" text).getD defaultTrigger) }
      else { should_show_message := false, message := none, trigger_type := none })
    ∧ (strContains text trueIndicator = true ↔
        ∃ l r, text.toList = l ++ trueIndicator.toList ++ r)
    ∧ (∀ key m, extractField key text = some m →
        ∃ l ws post,
          text.toList =
            l ++ ('"' :: (key.toList ++ ['"', ':'])) ++ ws ++ '"' :: m.toList ++ '"' :: post
          ∧ (∀ c ∈ ws, pyIsSpace c = true)
          ∧ m.toList ≠ []
          ∧ ∀ c ∈ m.toList, c ≠ '"') := by
  refine ⟨rfl, containsSub_iff _ _, ?_⟩
  intro key m h
  obtain ⟨l, rest, hcs, hmatch⟩ := searchFrom_sound h
  obtain ⟨ws, post, hrest, hws, hne, hq⟩ := tryMatchAt_sound hmatch
  refine ⟨l, ws, post, ?_, hws, hne, hq⟩
  rw [hcs, hrest]
  simp

end Melingo
